import Mathlib

/-!
Shallow embedding of the persistence and query layer of `src/hello2.py`
(a SQLAlchemy/SQLite movie-theater administration app).

Modelling conventions, all derived from the source and the concrete
behaviour of its storage engine:

* Calendar dates and times of day are totally ordered scalar values; we
  model them as integers in `YYYYMMDD` (resp. `HHMM`) form, which has the
  same order as the `TEXT` ISO form SQLite stores and compares with
  `BETWEEN`.
* Each table is a list of rows in rowid (insertion) order, which is the
  order a full SQLite table scan returns.
* The engine is opened with `create_engine('sqlite:///movie.db')` and no
  `PRAGMA foreign_keys` is ever issued, so SQLite does NOT enforce the
  declared `ForeignKey` columns: raw `INSERT`s into
  `movie_room_association` succeed even when the referenced `Rooms` or
  `Movies` row does not exist.  The composite PRIMARY KEY
  `(movie_id, room_id)` of the association table IS enforced: inserting a
  duplicate pair fails with an integrity error.
* All statements of one Python function run inside one session
  transaction that is committed only by the final `session.commit()`; a
  statement failure propagates as an exception before the commit, so the
  committed store is left unchanged (rollback).  Operations therefore
  return `Option DBErr × DB`: `(none, db')` for a committed new state,
  `(some e, db)` for a failure that leaves the committed state intact.
* `session.query(X).get(id)` returns the row with primary key `id` or
  `None`; the source then dereferences the result, so an absent id makes
  the operation fail without modifying the store.  We name that failure
  `DBErr.notFound` (the spec's `NotFoundError` kind).
-/

namespace MovieApp

/-- Calendar date, as an integer in `YYYYMMDD` form. -/
abbrev Date := Int

/-- Time of day, as an integer in `HHMM` form. -/
abbrev TimeOfDay := Int

/-- A row of the `Movies` table (`class Movie` in `src/hello2.py`). -/
structure Movie where
  movie_id : Nat
  title : String
  genre : Option String
  duration : Option Int
  release_date : Option Date
  deriving DecidableEq

/-- A row of the `Rooms` table (`class Room` in `src/hello2.py`). -/
structure Room where
  room_id : Nat
  room_number : Int
  max_capacity : Option Int
  deriving DecidableEq

/-- A row of the `Showtimes` table (`class Showtime` in `src/hello2.py`). -/
structure Showtime where
  showtime_id : Nat
  movie_id : Nat
  room_id : Nat
  show_date : Date
  show_time : TimeOfDay
  deriving DecidableEq

/-- The committed state of the store: the three entity tables plus the
`movie_room_association` join table, each in rowid order. -/
structure DB where
  movies : List Movie
  rooms : List Room
  showtimes : List Showtime
  assoc : List (Nat × Nat)
  deriving DecidableEq

/-- Failure kinds of the operations (see the modelling notes above). -/
inductive DBErr
  | notFound
  | integrityError
  deriving DecidableEq

/-- SQLite rowid allocation for an `INTEGER PRIMARY KEY` column: one more
than the largest id in use. -/
def freshId (ids : List Nat) : Nat := ids.foldr max 0 + 1

/-- `fetch_movie_rooms` (src/hello2.py:90-99): joins `Rooms` with the
association table, keeping the rooms linked to `movie_id`.  The scan of
`Rooms` is in rowid order. -/
def fetch_movie_rooms (mid : Nat) (db : DB) : List (Nat × Int) :=
  (db.rooms.filter (fun r => decide ((mid, r.room_id) ∈ db.assoc))).map
    (fun r => (r.room_id, r.room_number))

/-- The `INSERT` loop of `update_movie_rooms` (src/hello2.py:104-108):
insert `(mid, r)` for each `r` in `rids` in order; a duplicate pair
violates the association table's composite primary key. -/
def insertAssocs (mid : Nat) (rids : List Nat) (a : List (Nat × Nat)) :
    Except DBErr (List (Nat × Nat)) :=
  match rids with
  | [] => .ok a
  | r :: rest =>
    if (mid, r) ∈ a then .error .integrityError
    else insertAssocs mid rest (a ++ [(mid, r)])

/-- `update_movie_rooms` (src/hello2.py:102-109): one transaction that
deletes every association row of `mid` and then inserts one row per id in
`rids`; a failure before the final commit leaves the committed state
unchanged.  No foreign-key check is performed (see modelling notes). -/
def update_movie_rooms (mid : Nat) (rids : List Nat) (db : DB) :
    Option DBErr × DB :=
  let cleared := db.assoc.filter (fun p => decide (p.1 ≠ mid))
  match insertAssocs mid rids cleared with
  | .ok a => (none, { db with assoc := a })
  | .error e => (some e, db)

/-- `update_movie_orm` (src/hello2.py:76-82): fetch the movie by primary
key; an absent id fails (the source dereferences `None`) without touching
the store, otherwise all four fields are overwritten and committed. -/
def update_movie_orm (mid : Nat) (t : String) (g : Option String)
    (d : Option Int) (rd : Option Date) (db : DB) : Option DBErr × DB :=
  match db.movies.find? (fun m => decide (m.movie_id = mid)) with
  | none => (some .notFound, db)
  | some _ =>
    (none, { db with
      movies := db.movies.map (fun m =>
        if m.movie_id = mid then
          { m with title := t, genre := g, duration := d, release_date := rd }
        else m) })

/-- `delete_movie_orm` (src/hello2.py:84-87): fetch the movie by primary
key; an absent id fails (the source passes `None` to `session.delete`)
without touching the store.  Otherwise the ORM deletes the `Movies` row
and, for each `Room` object loaded through the `secondary` relationship,
the association row `(mid, room_id)`; an association row whose `room_id`
matches no `Rooms` row is not part of the loaded collection and is left
behind. -/
def delete_movie_orm (mid : Nat) (db : DB) : Option DBErr × DB :=
  match db.movies.find? (fun m => decide (m.movie_id = mid)) with
  | none => (some .notFound, db)
  | some _ =>
    let roomIds := db.rooms.map Room.room_id
    (none, { db with
      movies := db.movies.filter (fun m => decide (m.movie_id ≠ mid)),
      assoc := db.assoc.filter
        (fun p => decide (¬(p.1 = mid ∧ p.2 ∈ roomIds))) })

/-- The filter clauses of `generate_report` (src/hello2.py:121-126): a
clause is appended only when the Python argument is truthy (`if room_id:`),
so `none` and `some 0` both leave the filter off. -/
def filterOk (o : Option Nat) (v : Nat) : Bool :=
  match o with
  | none => true
  | some x => x == 0 || v == x

/-- One candidate row of the report join: `some` row exactly when the two
join conditions, the inclusive `BETWEEN` on the show date, and the
optional filters hold. -/
def reportRow (sd ed : Date) (rid mid : Option Nat)
    (st : Showtime) (m : Movie) (r : Room) :
    Option (String × Date × TimeOfDay × Int × Option Int) :=
  if st.movie_id == m.movie_id && st.room_id == r.room_id
      && decide (sd ≤ st.show_date) && decide (st.show_date ≤ ed)
      && filterOk rid r.room_id && filterOk mid m.movie_id then
    some (m.title, st.show_date, st.show_time, r.room_number, m.duration)
  else none

/-- `generate_report` (src/hello2.py:112-129): the inner join of
`Showtimes`, `Movies` and `Rooms` restricted by the `WHERE` clause built
from the date range and the truthy optional filters. -/
def generate_report (sd ed : Date) (rid mid : Option Nat) (db : DB) :
    List (String × Date × TimeOfDay × Int × Option Int) :=
  db.showtimes.flatMap (fun st =>
    db.movies.flatMap (fun m =>
      db.rooms.filterMap (fun r => reportRow sd ed rid mid st m r)))

/-- `add_sample_data` (src/hello2.py:50-61): if the `Rooms` table is
empty, insert rooms number 1 (capacity 3) and 2 (capacity 2); if the
`Movies` table is empty, insert "Inception" and "The Godfather" and link
the first to the room with primary key 1 (fetched with
`session.query(Room).get(1)` after the autoflush of the new rooms); if
that room does not exist the appended `None` makes the flush fail before
the commit. -/
def add_sample_data (db : DB) : Option DBErr × DB :=
  let db1 :=
    if db.rooms.isEmpty then
      let i := freshId (db.rooms.map Room.room_id)
      { db with rooms := db.rooms ++ [⟨i, 1, some 3⟩, ⟨i + 1, 2, some 2⟩] }
    else db
  if db1.movies.isEmpty then
    match db1.rooms.find? (fun r => decide (r.room_id = 1)) with
    | some r =>
      let i := freshId (db1.movies.map Movie.movie_id)
      (none, { db1 with
        movies := db1.movies ++
          [⟨i, "Inception", some "Sci-Fi", some 148, some 20100716⟩,
           ⟨i + 1, "The Godfather", some "Crime", some 175, some 19720324⟩],
        assoc := db1.assoc ++ [(i, r.room_id)] })
    | none => (some .integrityError, db)
  else (none, db1)

/-- The empty store, as created on first run. -/
def emptyDB : DB := ⟨[], [], [], []⟩

/-- The store state after a successful seed of the empty store. -/
def seededDB : DB :=
  { movies :=
      [⟨1, "Inception", some "Sci-Fi", some 148, some 20100716⟩,
       ⟨2, "The Godfather", some "Crime", some 175, some 19720324⟩],
    rooms := [⟨1, 1, some 3⟩, ⟨2, 2, some 2⟩],
    showtimes := [],
    assoc := [(1, 1)] }

/-! ### Helper lemmas -/

/-- When `rids` has no duplicates and no `(mid, r)` pair is already
present, the insert loop succeeds and appends the new pairs in order. -/
theorem insertAssocs_ok (mid : Nat) (rids : List Nat) (a : List (Nat × Nat))
    (hnd : rids.Nodup) (hfresh : ∀ r ∈ rids, (mid, r) ∉ a) :
    insertAssocs mid rids a = .ok (a ++ rids.map (fun r => (mid, r))) := by
  induction rids generalizing a with
  | nil => simp [insertAssocs]
  | cons r rest ih =>
    obtain ⟨hr, hndr⟩ := List.nodup_cons.mp hnd
    rw [insertAssocs, if_neg (hfresh r (by simp))]
    rw [ih (a ++ [(mid, r)]) hndr ?_]
    · simp
    · intro x hx hmem
      rcases List.mem_append.mp hmem with h | h
      · exact hfresh x (by simp [hx]) h
      · simp only [List.mem_singleton, Prod.mk.injEq] at h
        exact hr (h.2 ▸ hx)

/-- Membership in the result of `fetch_movie_rooms`. -/
theorem mem_fetch_movie_rooms (mid : Nat) (db : DB) (p : Nat × Int) :
    p ∈ fetch_movie_rooms mid db ↔
      ∃ r ∈ db.rooms, (mid, r.room_id) ∈ db.assoc ∧
        p = (r.room_id, r.room_number) := by
  simp only [fetch_movie_rooms, List.mem_map, List.mem_filter,
    decide_eq_true_eq]
  constructor
  · rintro ⟨r, ⟨hr, hmem⟩, hep⟩
    exact ⟨r, hr, hmem, hep.symm⟩
  · rintro ⟨r, hr, hmem, hep⟩
    exact ⟨r, ⟨hr, hmem⟩, hep.symm⟩

/-- Membership in the report is membership in the three-table join. -/
theorem mem_generate_report (sd ed : Date) (rid mid : Option Nat) (db : DB)
    (row : String × Date × TimeOfDay × Int × Option Int) :
    row ∈ generate_report sd ed rid mid db ↔
      ∃ st ∈ db.showtimes, ∃ m ∈ db.movies, ∃ r ∈ db.rooms,
        reportRow sd ed rid mid st m r = some row := by
  simp [generate_report, List.mem_flatMap, List.mem_filterMap]

/-- Characterization of a produced report row. -/
theorem reportRow_eq_some (sd ed : Date) (rid mid : Option Nat)
    (st : Showtime) (m : Movie) (r : Room)
    (row : String × Date × TimeOfDay × Int × Option Int) :
    reportRow sd ed rid mid st m r = some row ↔
      st.movie_id = m.movie_id ∧ st.room_id = r.room_id ∧
      sd ≤ st.show_date ∧ st.show_date ≤ ed ∧
      filterOk rid r.room_id = true ∧ filterOk mid m.movie_id = true ∧
      row = (m.title, st.show_date, st.show_time, r.room_number, m.duration) := by
  constructor
  · intro h
    rw [reportRow] at h
    split at h
    case isTrue hc =>
      simp only [Option.some.injEq] at h
      simp only [Bool.and_eq_true, beq_iff_eq, decide_eq_true_eq] at hc
      obtain ⟨⟨⟨⟨⟨h1, h2⟩, h3⟩, h4⟩, h5⟩, h6⟩ := hc
      exact ⟨h1, h2, h3, h4, h5, h6, h.symm⟩
    case isFalse => exact absurd h (by simp)
  · rintro ⟨h1, h2, h3, h4, h5, h6, rfl⟩
    have hc : (st.movie_id == m.movie_id && st.room_id == r.room_id
        && decide (sd ≤ st.show_date) && decide (st.show_date ≤ ed)
        && filterOk rid r.room_id && filterOk mid m.movie_id) = true := by
      simp [Bool.and_eq_true, beq_iff_eq, decide_eq_true_eq, h1, h2, h3, h4,
        h5, h6]
    rw [reportRow, if_pos hc]

/-- A filter argument of `some 0` is falsy in Python, so the clause is
dropped from the query, as with `none`. -/
theorem filterOk_zero (v : Nat) : filterOk (some 0) v = filterOk none v := by
  simp [filterOk]

/-! ### Claim C8 -/

/-- C8: seeding the empty store yields rooms number 1 (capacity 3, id 1)
and 2 (capacity 2, id 2), the movies "Inception" (Sci-Fi, 148 min,
2010-07-16) and "The Godfather" (Crime, 175 min, 1972-03-24), with
Inception linked to room 1; seeding again is a no-op on the whole
state. -/
theorem c8_seed_empty_then_idempotent :
    add_sample_data emptyDB = (none, seededDB)
    ∧ add_sample_data seededDB = (none, seededDB) := by
  constructor <;> rfl

/-! ### Claim C10 -/

/-- C10: a falsy (zero) `room_id` or `movie_id` argument drops the
corresponding filter, so the report is the one produced with the filter
absent, for every store state and date range. -/
theorem c10_falsy_filter_ignored (db : DB) (sd ed : Date)
    (rid mid : Option Nat) :
    generate_report sd ed (some 0) mid db = generate_report sd ed none mid db
    ∧ generate_report sd ed rid (some 0) db
        = generate_report sd ed rid none db := by
  constructor
  · simp only [generate_report, reportRow, filterOk_zero]
  · simp only [generate_report, reportRow, filterOk_zero]

/-! ### Claim C4 (code bug: reachable state violating referential
integrity) -/

/-- C4: evaluation at the failing input.  From the seeded store (rooms 1
and 2 only), `update_movie_rooms 1 [999]` commits successfully and leaves
the association pair `(1, 999)`, which references no existing `Rooms`
row: the referential-integrity invariant does not hold in every reachable
state, because SQLite never enforces the declared foreign keys on this
connection. -/
theorem c4_reachable_integrity_violation :
    (update_movie_rooms 1 [999] seededDB).1 = none
    ∧ (1, 999) ∈ (update_movie_rooms 1 [999] seededDB).2.assoc
    ∧ ∀ r ∈ (update_movie_rooms 1 [999] seededDB).2.rooms,
        r.room_id ≠ 999 := by decide

/-! ### Claim C5 (code bug: no `ReferentialError` is raised) -/

/-- C5: evaluation at the failing input.  Replacing the rooms of movie 2
with the nonexistent room id 7 does not fail at all — the call commits
and the dangling pair `(2, 7)` is stored — although the schema declares
`room_id` as a foreign key into `Rooms`. -/
theorem c5_missing_room_not_rejected :
    (∀ r ∈ seededDB.rooms, r.room_id ≠ 7)
    ∧ (update_movie_rooms 2 [7] seededDB).1 = none
    ∧ (2, 7) ∈ (update_movie_rooms 2 [7] seededDB).2.assoc := by decide

/-! ### Claim C6 -/

/-- C6: `update_movie_rooms` is one transaction; if any step fails, the
committed store — in particular the association set of the movie — is
exactly what it was before the call. -/
theorem c6_failure_leaves_state (mid : Nat) (rids : List Nat) (db : DB)
    (h : (update_movie_rooms mid rids db).1 ≠ none) :
    (update_movie_rooms mid rids db).2 = db := by
  rcases hin : insertAssocs mid rids
      (db.assoc.filter (fun p => decide (p.1 ≠ mid))) with e | a
  · simp only [update_movie_rooms, hin]
  · simp only [update_movie_rooms, hin] at h
    exact absurd rfl h

/-- Store used to exercise the failure path of `update_movie_rooms`. -/
def w6db : DB :=
  ⟨[⟨1, "A", none, none, none⟩], [⟨1, 1, some 3⟩], [], [(1, 1)]⟩

/-- C6 witness: inserting the duplicate list `[1, 1]` violates the
association table's primary key, and the store is left untouched. -/
theorem c6_failure_leaves_state_witness :
    (update_movie_rooms 1 [1, 1] w6db).1 ≠ none
    ∧ (update_movie_rooms 1 [1, 1] w6db).2 = w6db :=
  ⟨by decide, c6_failure_leaves_state 1 [1, 1] w6db (by decide)⟩

/-! ### Claim C7 -/

/-- C7: when no movie with the given id exists, `update_movie_orm` and
`delete_movie_orm` both fail with the not-found error and return the
store unchanged. -/
theorem c7_absent_id_notfound (mid : Nat) (t : String) (g : Option String)
    (d : Option Int) (rd : Option Date) (db : DB)
    (h : ∀ m ∈ db.movies, m.movie_id ≠ mid) :
    update_movie_orm mid t g d rd db = (some .notFound, db)
    ∧ delete_movie_orm mid db = (some .notFound, db) := by
  have hfind : db.movies.find? (fun m => decide (m.movie_id = mid)) = none :=
    List.find?_eq_none.mpr (fun m hm => by simpa using h m hm)
  constructor
  · rw [update_movie_orm, hfind]
  · rw [delete_movie_orm, hfind]

/-- C7 witness: movie id 5 is absent from the seeded store. -/
theorem c7_absent_id_notfound_witness :
    update_movie_orm 5 "X" none none none seededDB
        = (some .notFound, seededDB)
    ∧ delete_movie_orm 5 seededDB = (some .notFound, seededDB) :=
  c7_absent_id_notfound 5 "X" none none none seededDB (by decide)

/-! ### Claim C1 -/

/-- A successful replace commits the cleared association list followed by
the freshly inserted pairs, in order. -/
theorem update_movie_rooms_ok (mid : Nat) (rids : List Nat) (db : DB)
    (hnd : rids.Nodup) :
    update_movie_rooms mid rids db =
      (none, { db with assoc :=
        (db.assoc.filter (fun p => decide (p.1 ≠ mid))
          ++ rids.map (fun r => (mid, r))) }) := by
  have hfresh : ∀ r ∈ rids,
      (mid, r) ∉ db.assoc.filter (fun p => decide (p.1 ≠ mid)) := by
    intro r _ hmem
    have h2 := (List.mem_filter.mp hmem).2
    simp at h2
  simp only [update_movie_rooms, insertAssocs_ok mid rids _ hnd hfresh]

/-- Deleting the rows of `mid` again after a replace returns the same
cleared list: the newly inserted pairs all carry `mid` and the rest never
did. -/
theorem cleared_stable (mid : Nat) (rids : List Nat) (db : DB) :
    (db.assoc.filter (fun p => decide (p.1 ≠ mid))
        ++ rids.map (fun r => (mid, r))).filter
          (fun p => decide (p.1 ≠ mid))
      = db.assoc.filter (fun p => decide (p.1 ≠ mid)) := by
  rw [List.filter_append]
  have h1 := List.filter_eq_self.mpr
    (fun (a : Nat × Nat) (ha : a ∈ db.assoc.filter
      (fun p => decide (p.1 ≠ mid))) => (List.mem_filter.mp ha).2)
  have h2 : (rids.map (fun r => (mid, r))).filter
      (fun p => decide (p.1 ≠ mid)) = [] := by
    refine List.filter_eq_nil_iff.mpr ?_
    intro a ha
    rcases List.mem_map.mp ha with ⟨y, _, rfl⟩
    simp
  rw [h1, h2, List.append_nil]

/-- Store with movie 1 and the single room 1, used to refute the
round-trip law as stated. -/
def c1db : DB := ⟨[⟨1, "A", none, none, none⟩], [⟨1, 1, some 3⟩], [], []⟩

/-- C1 counterexample: replacing the rooms of movie 1 with `R = [2]`
succeeds even though no room 2 exists (foreign keys are not enforced),
and the immediate read-back returns the empty set rather than `{2}`:
the round-trip law fails for a list containing a nonexistent room id. -/
theorem c1_roundtrip_counterexample :
    (update_movie_rooms 1 [2] c1db).1 = none
    ∧ (2 : Nat) ∈ [2]
    ∧ (2 : Nat) ∉ (fetch_movie_rooms 1
        (update_movie_rooms 1 [2] c1db).2).map Prod.fst := by decide

/-- C1 (amended): for every movie id and every duplicate-free list `R`
of ids of existing rooms, `update_movie_rooms` succeeds,
`fetch_movie_rooms` then returns exactly the set `R`, regardless of the
prior association set, and a second identical call produces the same
result and final state as the first. -/
theorem c1_replace_then_fetch_amended (mid : Nat) (rids : List Nat)
    (db : DB) (hnd : rids.Nodup)
    (hex : ∀ rid ∈ rids, ∃ r ∈ db.rooms, r.room_id = rid) :
    (update_movie_rooms mid rids db).1 = none
    ∧ (∀ x, x ∈ (fetch_movie_rooms mid
        (update_movie_rooms mid rids db).2).map Prod.fst ↔ x ∈ rids)
    ∧ update_movie_rooms mid rids (update_movie_rooms mid rids db).2
        = update_movie_rooms mid rids db := by
  rw [update_movie_rooms_ok mid rids db hnd]
  refine ⟨rfl, ?_, ?_⟩
  · intro x
    constructor
    · intro hx
      rcases List.mem_map.mp hx with ⟨p, hp, hpx⟩
      rcases (mem_fetch_movie_rooms mid _ p).mp hp with ⟨r, _, hmem, hpe⟩
      rcases List.mem_append.mp hmem with h | h
      · have h2 := (List.mem_filter.mp h).2
        simp at h2
      · rcases List.mem_map.mp h with ⟨y, hy, hye⟩
        have hyr : y = r.room_id := (Prod.ext_iff.mp hye).2
        have hxr : x = r.room_id := by
          rw [← hpx, hpe]
        rw [hxr, ← hyr]
        exact hy
    · intro hx
      rcases hex x hx with ⟨r, hr, hre⟩
      refine List.mem_map.mpr ⟨(r.room_id, r.room_number), ?_, hre⟩
      refine (mem_fetch_movie_rooms mid _ _).mpr ⟨r, hr, ?_, rfl⟩
      refine List.mem_append.mpr (Or.inr ?_)
      exact List.mem_map.mpr ⟨x, hx, by rw [hre]⟩
  · rw [update_movie_rooms_ok mid rids _ hnd]
    simp [cleared_stable]

/-- Store with rooms 1 and 2, movie 1 linked to room 1, used to witness
the amended round-trip law. -/
def w1db : DB :=
  ⟨[⟨1, "A", none, none, none⟩], [⟨1, 1, some 3⟩, ⟨2, 2, some 2⟩], [],
    [(1, 1)]⟩

/-- C1 witness: replacing the rooms of movie 1 by `[2, 1]` (both rooms
exist, no duplicates) succeeds, the read-back set is `{2, 1}`, and the
call is idempotent. -/
theorem c1_replace_then_fetch_amended_witness :
    (update_movie_rooms 1 [2, 1] w1db).1 = none
    ∧ ((2 : Nat) ∈ (fetch_movie_rooms 1
        (update_movie_rooms 1 [2, 1] w1db).2).map Prod.fst ↔
          (2 : Nat) ∈ [2, 1])
    ∧ update_movie_rooms 1 [2, 1] (update_movie_rooms 1 [2, 1] w1db).2
        = update_movie_rooms 1 [2, 1] w1db :=
  ⟨(c1_replace_then_fetch_amended 1 [2, 1] w1db (by decide) (by decide)).1,
   (c1_replace_then_fetch_amended 1 [2, 1] w1db (by decide)
      (by decide)).2.1 2,
   (c1_replace_then_fetch_amended 1 [2, 1] w1db (by decide)
      (by decide)).2.2⟩

/-! ### Claim C3 -/

/-- C3: deleting an existing movie succeeds, removes its `Movies` row and
every association row referencing it (given that those rows reference
existing rooms, i.e. the rows the ORM can see through the relationship),
and a subsequent `fetch_movie_rooms` returns the empty sequence. -/
theorem c3_delete_then_fetch (mid : Nat) (db : DB)
    (hmem : ∃ m ∈ db.movies, m.movie_id = mid)
    (hok : ∀ p ∈ db.assoc, p.1 = mid → p.2 ∈ db.rooms.map Room.room_id) :
    (delete_movie_orm mid db).1 = none
    ∧ (∀ m ∈ (delete_movie_orm mid db).2.movies, m.movie_id ≠ mid)
    ∧ (∀ p ∈ (delete_movie_orm mid db).2.assoc, p.1 ≠ mid)
    ∧ fetch_movie_rooms mid (delete_movie_orm mid db).2 = [] := by
  obtain ⟨m0, hm0, hm0id⟩ := hmem
  rcases hfind : db.movies.find? (fun m => decide (m.movie_id = mid))
      with _ | mfound
  · rw [List.find?_eq_none] at hfind
    exact absurd (by simp [hm0id]) (hfind m0 hm0)
  · simp only [delete_movie_orm, hfind]
    refine ⟨trivial, ?_, ?_, ?_⟩
    · intro m hm
      have h2 := (List.mem_filter.mp hm).2
      simpa using h2
    · intro p hp
      have h1 := (List.mem_filter.mp hp).1
      have h2 := (List.mem_filter.mp hp).2
      simp only [decide_eq_true_eq] at h2
      intro hpe
      exact h2 ⟨hpe, hok p h1 hpe⟩
    · have hnil : db.rooms.filter (fun r => decide ((mid, r.room_id) ∈
          db.assoc.filter (fun p => decide (¬(p.1 = mid ∧
            p.2 ∈ db.rooms.map Room.room_id))))) = [] := by
        refine List.filter_eq_nil_iff.mpr ?_
        intro r _ hdec
        simp only [decide_eq_true_eq] at hdec
        have h1 := (List.mem_filter.mp hdec).1
        have h2 := (List.mem_filter.mp hdec).2
        simp only [decide_eq_true_eq] at h2
        exact h2 ⟨trivial, hok _ h1 rfl⟩
      simp only [fetch_movie_rooms, hnil, List.map_nil]

/-- Store with movies 1 and 2 and room 1, both movies linked to room 1,
used to witness the delete cascade. -/
def w3db : DB :=
  ⟨[⟨1, "A", none, none, none⟩, ⟨2, "B", none, none, none⟩],
   [⟨1, 1, some 3⟩], [], [(1, 1), (2, 1)]⟩

/-- C3 witness: after deleting movie 1, its room list reads back
empty. -/
theorem c3_delete_then_fetch_witness :
    fetch_movie_rooms 1 (delete_movie_orm 1 w3db).2 = [] :=
  (c3_delete_then_fetch 1 w3db (by decide) (by decide)).2.2.2

/-! ### Claim C9 -/

/-- C9: `fetch_movie_rooms` returns exactly the (room id, room number)
pairs of the rooms linked to the movie, in ascending room-id order (the
`Rooms` table is scanned in rowid = primary-key order, expressed by the
hypothesis), and the empty sequence when no room is linked. -/
theorem c9_rooms_for_movie_spec (mid : Nat) (db : DB)
    (hs : db.rooms.Pairwise (fun a b => a.room_id < b.room_id)) :
    (fetch_movie_rooms mid db).Pairwise (fun p q => p.1 < q.1)
    ∧ (∀ p, p ∈ fetch_movie_rooms mid db ↔
        ∃ r ∈ db.rooms, (mid, r.room_id) ∈ db.assoc ∧
          p = (r.room_id, r.room_number))
    ∧ ((∀ r ∈ db.rooms, (mid, r.room_id) ∉ db.assoc) →
        fetch_movie_rooms mid db = []) := by
  refine ⟨?_, fun p => mem_fetch_movie_rooms mid db p, ?_⟩
  · have hf := hs.sublist (List.filter_sublist
      (p := fun r => decide ((mid, r.room_id) ∈ db.assoc)) db.rooms)
    exact hf.map _ (fun a b h => h)
  · intro hnone
    rw [fetch_movie_rooms]
    have hnil : db.rooms.filter
        (fun r => decide ((mid, r.room_id) ∈ db.assoc)) = [] :=
      List.filter_eq_nil_iff.mpr (fun r hr => by simpa using hnone r hr)
    rw [hnil, List.map_nil]

/-- Store whose association rows for movie 1 are listed out of room-id
order, used to witness the ordering of the read-back. -/
def w9db : DB :=
  ⟨[], [⟨1, 1, some 3⟩, ⟨2, 2, some 2⟩], [], [(1, 2), (1, 1)]⟩

/-- C9 witness: the pairs returned for movie 1 are in ascending room-id
order. -/
theorem c9_rooms_for_movie_spec_witness :
    (fetch_movie_rooms 1 w9db).Pairwise (fun p q => p.1 < q.1) :=
  (c9_rooms_for_movie_spec 1 w9db (by decide)).1

/-! ### Claim C2 -/

/-- C2: over any store whose showtimes reference existing movies and
rooms, the report contains no row whose show date lies outside the
inclusive range, and contains a row for every showtime whose show date
lies in the range and whose room and movie match the provided filters. -/
theorem c2_generate_report_spec (sd ed : Date) (rid mid : Option Nat)
    (db : DB)
    (hres : ∀ st ∈ db.showtimes,
      (∃ m ∈ db.movies, m.movie_id = st.movie_id)
      ∧ (∃ r ∈ db.rooms, r.room_id = st.room_id)) :
    (∀ row ∈ generate_report sd ed rid mid db,
        sd ≤ row.2.1 ∧ row.2.1 ≤ ed)
    ∧ (∀ st ∈ db.showtimes, sd ≤ st.show_date → st.show_date ≤ ed →
        (∀ x, rid = some x → st.room_id = x) →
        (∀ x, mid = some x → st.movie_id = x) →
        ∃ m ∈ db.movies, ∃ r ∈ db.rooms,
          m.movie_id = st.movie_id ∧ r.room_id = st.room_id ∧
          (m.title, st.show_date, st.show_time, r.room_number, m.duration)
            ∈ generate_report sd ed rid mid db) := by
  constructor
  · intro row hrow
    rcases (mem_generate_report sd ed rid mid db row).mp hrow with
      ⟨st, _, m, _, r, _, hsome⟩
    rcases (reportRow_eq_some sd ed rid mid st m r row).mp hsome with
      ⟨_, _, h3, h4, _, _, rfl⟩
    exact ⟨h3, h4⟩
  · intro st hst h1 h2 hroom hmovie
    obtain ⟨⟨m, hm, hmid⟩, ⟨r, hr, hrid⟩⟩ := hres st hst
    refine ⟨m, hm, r, hr, hmid, hrid, ?_⟩
    refine (mem_generate_report sd ed rid mid db _).mpr
      ⟨st, hst, m, hm, r, hr, ?_⟩
    refine (reportRow_eq_some sd ed rid mid st m r _).mpr
      ⟨hmid.symm, hrid.symm, h1, h2, ?_, ?_, rfl⟩
    · cases rid with
      | none => rfl
      | some x =>
        have hx := hroom x rfl
        simp [filterOk, hrid, hx]
    · cases mid with
      | none => rfl
      | some x =>
        have hx := hmovie x rfl
        simp [filterOk, hmid, hx]

/-- A showtime used to witness the report's completeness direction. -/
def wst : Showtime := ⟨1, 1, 1, 20240615, 1900⟩

/-- Store with one movie, one room and one in-range showtime. -/
def w2db : DB :=
  ⟨[⟨1, "A", none, some 100, none⟩], [⟨1, 4, some 3⟩], [wst], []⟩

/-- C2 witness: the unfiltered 2024 report over `w2db` contains a row
for its single showtime. -/
theorem c2_generate_report_spec_witness :
    ∃ m ∈ w2db.movies, ∃ r ∈ w2db.rooms,
      m.movie_id = wst.movie_id ∧ r.room_id = wst.room_id ∧
      (m.title, wst.show_date, wst.show_time, r.room_number, m.duration)
        ∈ generate_report 20240101 20241231 none none w2db :=
  (c2_generate_report_spec 20240101 20241231 none none w2db
      (by decide)).2 wst (by decide) (by decide) (by decide)
    (fun x h => Option.noConfusion h) (fun x h => Option.noConfusion h)

end MovieApp
